import Mathlib

/-!
Shallow embedding of the scan-analysis engine of `vanguard-rs-scanner`
(files `src/core/scanner/{dns,ssl,headers,fingerprint}_scanner.rs`,
`src/core/knowledge_base.rs`, `src/app.rs`), together with theorems
settling the specification claims about it.

Network I/O (DNS queries, TCP/TLS, HTTP requests) is abstracted as
explicit outcome parameters: each embedded probe takes the raw result of
its network operations as an argument and performs exactly the pure
computation the Rust code performs on it.  Instants (`chrono::DateTime<Utc>`)
are embedded as `Int` unix-epoch seconds, matching the code's
`DateTime::from_timestamp(ts, 0)` whole-second certificate instants.
-/

namespace Vanguard

/-- Severity of an analysis finding (`src/core/models.rs`, `enum Severity`). -/
inductive Severity where
  | Critical
  | Warning
  | Info
deriving DecidableEq, Repr

/-- Modelled from the spec: `Finding: {severity, code}` (§3).  The declaring
file of the current `AnalysisFinding` struct is not in the sources; its shape
is fixed by the spec and by every use `AnalysisFinding::new(severity, code)`
in the scanner modules. -/
structure AnalysisFinding where
  severity : Severity
  code : String
deriving DecidableEq, Repr

/-- Modelled from the spec: `Outcome<T>` tri-state result (§3), used by the
scanners as `ScanResult<T> = Result<Option<T>, String>`: `Ok(Some t)` is
Found, `Ok(None)` is NotFound, `Err(msg)` is Failed. -/
abbrev ScanResult (α : Type) := Except String (Option α)

deriving instance DecidableEq for Except

-- ---------------------------------------------------------------------------
-- Rust `str` primitives used by the parsing code, embedded on `List Char`
-- (kernel-reducible, unlike the well-founded `String.splitOn`)
-- ---------------------------------------------------------------------------

/-- Rust `str::split(sep)` for a `char` separator, on the character list of
the string: splitting the empty string yields `[""]`, and every separator
occurrence starts a new piece (so a trailing separator yields a trailing
empty piece), exactly as Rust's iterator collects. -/
def splitChar (sep : Char) : List Char → List (List Char)
  | [] => [[]]
  | c :: cs =>
    match splitChar sep cs with
    | [] => [[]]
    | piece :: rest => if c = sep then [] :: piece :: rest else (c :: piece) :: rest

/-- Rust `str::split(sep)` on `String`. -/
def strSplit (s : String) (sep : Char) : List String :=
  (splitChar sep s.data).map (fun cs => ⟨cs⟩)

/-- Rust `str::trim`: drop whitespace characters from both ends.  (Rust trims
the Unicode White_Space set; the records parsed here are ASCII, for which
`Char.isWhitespace` agrees.) -/
def strTrim (s : String) : String :=
  ⟨((s.data.dropWhile Char.isWhitespace).reverse.dropWhile Char.isWhitespace).reverse⟩

/-- Rust `str::starts_with` for a string pattern. -/
def strStartsWith (s pre : String) : Bool :=
  pre.data.isPrefixOf s.data

/-- Rust `str::ends_with` for a string pattern. -/
def strEndsWith (s suf : String) : Bool :=
  suf.data.reverse.isPrefixOf s.data.reverse

/-- True exactly on `Ok(_)`, as Rust `Result::is_ok`. -/
def scanResultIsOk {α : Type} : ScanResult α → Bool
  | .ok _ => true
  | .error _ => false

-- ---------------------------------------------------------------------------
-- DNS probe (`src/core/scanner/dns_scanner.rs`)
-- ---------------------------------------------------------------------------

/-- Modelled from the spec: `SpfRecord{text}` (§3); field named `record` as in
`SpfData { record: record_str }` in `lookup_spf`. -/
structure SpfData where
  record : String
deriving DecidableEq, Repr

/-- Modelled from the spec: `DmarcRecord{text, policy?}` (§3); fields as in
`DmarcData { record: record_str, policy }` in `lookup_dmarc`. -/
structure DmarcData where
  record : String
  policy : Option String
deriving DecidableEq, Repr

/-- Modelled from the spec: `DkimRecord{selector, text}` (§3); fields as in
`DkimRecord { selector, record }` in `lookup_dkim`. -/
structure DkimRecord where
  selector : String
  record : String
deriving DecidableEq, Repr

/-- Modelled from the spec: `DnsResult` (§3) as assembled by `run_dns_scan`. -/
structure DnsResults where
  spf : ScanResult SpfData
  dmarc : ScanResult DmarcData
  dkim : ScanResult (List DkimRecord)
  caa : ScanResult (List String)
  analysis : List AnalysisFinding

/-- `COMMON_DKIM_SELECTORS` of `dns_scanner.rs`. -/
def COMMON_DKIM_SELECTORS : List String :=
  ["google", "selector1", "selector2", "default", "dkim"]

/-- The SPF branch of `lookup_spf`: the first TXT record starting with
`v=spf1` is the SPF record; no such record is NotFound; a lookup error is
Failed.  The raw TXT answer (or the resolver error) is the argument. -/
def lookup_spf (txtLookup : Except String (List String)) : ScanResult SpfData :=
  match txtLookup with
  | .ok txt_records =>
    match txt_records.find? (fun r => strStartsWith r "v=spf1") with
    | some record_str => .ok (some { record := record_str })
    | none => .ok none
  | .error e => .error ("DNS Error: " ++ e)

/-- The policy extraction of `lookup_dmarc`: split the record on `;`, find the
first piece whose trim starts with `p=`, split that piece (trimmed) on `=` and
take the second element. -/
def dmarcPolicyOf (record_str : String) : Option String :=
  ((strSplit record_str ';').find? (fun s => strStartsWith (strTrim s) "p="))
    |>.bind (fun s => (strSplit (strTrim s) '=').get? 1)

/-- `lookup_dmarc` on the raw TXT answer for `_dmarc.<domain>`: the first
record (if any) is the DMARC record and its `p=` tag is extracted; an empty
answer is NotFound; a lookup error is Failed. -/
def lookup_dmarc (txtLookup : Except String (List String)) : ScanResult DmarcData :=
  match txtLookup with
  | .ok txt_records =>
    match txt_records with
    | [] => .ok none
    | record_str :: _ =>
        .ok (some { record := record_str, policy := dmarcPolicyOf record_str })
  | .error e => .error ("DNS Error: " ++ e)

/-- The per-selector loop body of `lookup_dkim`: look up TXT on
`<selector>._domainkey.<target>`; keep every record starting with `v=DKIM1`;
a per-selector lookup error only logs a warning and keeps nothing.  The
resolver is abstracted as a function from the queried name to the raw TXT
answer. -/
def dkim_loop_body (txtLookup : String → Except String (List String)) (target : String)
    (acc : List DkimRecord) (selector : String) : List DkimRecord :=
  match txtLookup (selector ++ "._domainkey." ++ target) with
  | .ok txt_records =>
      acc ++ (txt_records.filter (fun r => strStartsWith r "v=DKIM1")).map
        (fun r => { selector := selector, record := r })
  | .error _ => acc

/-- `lookup_dkim`: fold the per-selector loop body over the candidate
selectors, then wrap the collection. -/
def lookup_dkim (txtLookup : String → Except String (List String)) (target : String) :
    ScanResult (List DkimRecord) :=
  let found_records := COMMON_DKIM_SELECTORS.foldl (dkim_loop_body txtLookup target) []
  if found_records.isEmpty then .ok none else .ok (some found_records)

/-- `lookup_caa` on the raw CAA answer: an empty record list is NotFound, a
non-empty one is Found, a lookup error is Failed. -/
def lookup_caa (caaLookup : Except String (List String)) : ScanResult (List String) :=
  match caaLookup with
  | .ok records => if records.isEmpty then .ok none else .ok (some records)
  | .error e => .error ("DNS Error: " ++ e)

/-- The DMARC block of `analyze_dns_results`: policy `none` is a Warning,
a missing record is Critical, a lookup error produces nothing. -/
def dmarcFindings (dmarc : ScanResult DmarcData) : List AnalysisFinding :=
  match dmarc with
  | .ok (some d) =>
    match d.policy with
    | some policy =>
        if policy = "none" then [⟨.Warning, "DNS_DMARC_POLICY_NONE"⟩] else []
    | none => []
  | .ok none => [⟨.Critical, "DNS_DMARC_MISSING"⟩]
  | .error _ => []

/-- The SPF block of `analyze_dns_results`: a record ending `~all` is an Info
softfail, else one ending `?all` is an Info neutral; a missing record is a
Warning; a lookup error produces nothing. -/
def spfFindings (spf : ScanResult SpfData) : List AnalysisFinding :=
  match spf with
  | .ok (some s) =>
      if strEndsWith s.record "~all" then [⟨.Info, "DNS_SPF_POLICY_SOFTFAIL"⟩]
      else if strEndsWith s.record "?all" then [⟨.Info, "DNS_SPF_POLICY_NEUTRAL"⟩]
      else []
  | .ok none => [⟨.Warning, "DNS_SPF_MISSING"⟩]
  | .error _ => []

/-- The DKIM block of `analyze_dns_results`: only `Ok(None)` produces the Info
missing finding. -/
def dkimFindings (dkim : ScanResult (List DkimRecord)) : List AnalysisFinding :=
  match dkim with
  | .ok none => [⟨.Info, "DNS_DKIM_MISSING"⟩]
  | _ => []

/-- The CAA block of `analyze_dns_results`: only `Ok(None)` produces the Info
missing finding. -/
def caaFindings (caa : ScanResult (List String)) : List AnalysisFinding :=
  match caa with
  | .ok none => [⟨.Info, "DNS_CAA_MISSING"⟩]
  | _ => []

/-- `analyze_dns_results`: the four blocks push their findings in source
order (DMARC, SPF, DKIM, CAA). -/
def analyze_dns_results (results : DnsResults) : List AnalysisFinding :=
  dmarcFindings results.dmarc ++ spfFindings results.spf ++
    dkimFindings results.dkim ++ caaFindings results.caa

/-- `run_dns_scan` after the four concurrent lookups have returned: assemble
the `DnsResults` and fill in the analysis.  The raw network answers are the
arguments. -/
def run_dns_scan (spfL dmarcL : Except String (List String))
    (dkimL : String → Except String (List String))
    (caaL : Except String (List String)) (target : String) : DnsResults :=
  let base : DnsResults :=
    { spf := lookup_spf spfL
      dmarc := lookup_dmarc dmarcL
      dkim := lookup_dkim dkimL target
      caa := lookup_caa caaL
      analysis := [] }
  { base with analysis := analyze_dns_results base }

-- ---------------------------------------------------------------------------
-- SSL/TLS probe (`src/core/scanner/ssl_scanner.rs`)
-- ---------------------------------------------------------------------------

/-- `CertificateInfo` as filled in by `perform_tls_scan`: subject and issuer
names plus the validity instants (as unix-epoch seconds, the code's
`DateTime::from_timestamp(time.timestamp(), 0)`) and the day count until
expiry. -/
structure CertificateInfo where
  subject_name : String
  issuer_name : String
  not_before : Int
  not_after : Int
  days_until_expiry : Int
deriving DecidableEq, Repr

/-- `SslData` as built by `perform_tls_scan`: validity flag plus the
certificate details. -/
structure SslData where
  is_valid : Bool
  certificate_info : CertificateInfo
deriving DecidableEq, Repr

/-- `SslResults` as assembled by `run_ssl_scan`: the raw scan outcome and the
analysis findings. -/
structure SslResults where
  scan : ScanResult SslData
  analysis : List AnalysisFinding

/-- The possible outcomes of the blocking network work of
`perform_tls_scan`, in the order the code can hit them: connector setup
error, TCP connect error, handshake error, peer-certificate retrieval error,
handshake success with no peer certificate, DER conversion error, X.509
parse error, or a successfully decoded certificate with its subject, issuer
and validity instants (unix-epoch seconds). -/
inductive TlsOutcome where
  | connectorError (e : String)
  | tcpError (e : String)
  | handshakeError (e : String)
  | peerCertError (e : String)
  | noPeerCert
  | derError (e : String)
  | parseError (e : String)
  | cert (subject issuer : String) (not_before not_after : Int)

/-- `chrono::Duration::num_days` on a whole-second duration: the number of
whole days, truncated toward zero (`num_seconds() / 86400` with Rust `i64`
division). -/
def durationNumDays (secs : Int) : Int := Int.tdiv secs 86400

/-- The pure tail of `perform_tls_scan`, applied to the outcome of the
network work and the current instant `now` (`Utc::now()`, unix-epoch
seconds): each error path maps to `Err` with the code's message prefix, a
missing peer certificate to `Ok(None)`, and a decoded certificate to
`Ok(Some ..)` with `days_until_expiry = num_days(not_after - now)` and
`is_valid = (now > not_before && now < not_after)`. -/
def perform_tls_scan (outcome : TlsOutcome) (now : Int) : ScanResult SslData :=
  match outcome with
  | .connectorError e => .error ("TlsConnector Error: " ++ e)
  | .tcpError e => .error ("TCP Connection Error: " ++ e)
  | .handshakeError e => .error ("TLS Handshake Error: " ++ e)
  | .peerCertError e => .error ("Could not get peer certificate: " ++ e)
  | .noPeerCert => .ok none
  | .derError e => .error ("Could not convert certificate to DER: " ++ e)
  | .parseError e => .error ("X.509 Parse Error: " ++ e)
  | .cert subject issuer nb na =>
      let days_until_expiry := durationNumDays (na - now)
      let is_valid := decide (now > nb) && decide (now < na)
      .ok (some
        { is_valid := is_valid
          certificate_info :=
            { subject_name := subject
              issuer_name := issuer
              not_before := nb
              not_after := na
              days_until_expiry := days_until_expiry } })

/-- `analyze_ssl_results`: a failed scan is exactly one Critical
`SSL_HANDSHAKE_FAILED`; success without a certificate is exactly one Warning
`SSL_NO_CERTIFICATE_FOUND`; with a certificate, an invalid one pushes a
Critical `SSL_EXPIRED` and a `days_until_expiry` within `0..=30` pushes a
Warning `SSL_EXPIRING_SOON`. -/
def analyze_ssl_results (results : SslResults) : List AnalysisFinding :=
  match results.scan with
  | .error _ => [⟨.Critical, "SSL_HANDSHAKE_FAILED"⟩]
  | .ok none => [⟨.Warning, "SSL_NO_CERTIFICATE_FOUND"⟩]
  | .ok (some ssl_data) =>
      (if ssl_data.is_valid then [] else [⟨.Critical, "SSL_EXPIRED"⟩]) ++
      (if 0 ≤ ssl_data.certificate_info.days_until_expiry ∧
          ssl_data.certificate_info.days_until_expiry ≤ 30
       then [⟨.Warning, "SSL_EXPIRING_SOON"⟩] else [])

/-- `run_ssl_scan`: the blocking task's join result (`Err` being a caught
panic, converted by `unwrap_or_else` into a `Failed` scan outcome with the
`Task panicked:` message) is turned into `SslResults` and analyzed. -/
def run_ssl_scan (blocking : Except String TlsOutcome) (now : Int) : SslResults :=
  let scan_result : ScanResult SslData :=
    match blocking with
    | .ok outcome => perform_tls_scan outcome now
    | .error e => .error ("Task panicked: " ++ e)
  let base : SslResults := { scan := scan_result, analysis := [] }
  { base with analysis := analyze_ssl_results base }

/-- True exactly when the blocking work of the TLS scan fails in any way:
the worker thread panicked, or `perform_tls_scan` hit any of its error
paths (everything except a successful handshake, with or without a peer
certificate). -/
def tlsWorkFailed (blocking : Except String TlsOutcome) : Bool :=
  match blocking with
  | .error _ => true
  | .ok (.cert _ _ _ _) => false
  | .ok .noPeerCert => false
  | .ok _ => true

-- ---------------------------------------------------------------------------
-- HTTP security-headers probe (`src/core/scanner/headers_scanner.rs`)
-- ---------------------------------------------------------------------------

/-- Modelled from the spec: `HeaderValue{text}` (§3); field named `value` as
in `HeaderData { value: s.to_string() }` in `check_header`. -/
structure HeaderData where
  value : String
deriving DecidableEq, Repr

/-- Modelled from the spec: `HeadersResult` (§3) as assembled by
`run_headers_scan`. -/
structure HeadersResults where
  error : Option String
  hsts : ScanResult HeaderData
  csp : ScanResult HeaderData
  x_frame_options : ScanResult HeaderData
  x_content_type_options : ScanResult HeaderData
  analysis : List AnalysisFinding

/-- Modelled from the spec: the `Default` of `HeadersResults` used on the
request-failure paths (its declaring file is not in the sources); on those
paths only the `error` and `analysis` fields matter, since
`analyze_headers_results` returns before inspecting the header fields. -/
def defaultHeadersResults : HeadersResults :=
  { error := none
    hsts := .ok none
    csp := .ok none
    x_frame_options := .ok none
    x_content_type_options := .ok none
    analysis := [] }

/-- A response header map, abstracted: for a header name, `none` means the
header is absent, `some (some s)` a value that decodes as text `s`, and
`some none` a present value that is not valid UTF-8. -/
abbrev HeaderMap := String → Option (Option String)

/-- `check_header`: a present header decodes to `Found` with its text, or to
`Found` with the `[Invalid UTF-8]` placeholder when `to_str` fails; an
absent header is `NotFound`.  It never returns `Err`. -/
def check_header (headers : HeaderMap) (name : String) : ScanResult HeaderData :=
  match headers name with
  | some (some s) => .ok (some { value := s })
  | some none => .ok (some { value := "[Invalid UTF-8]" })
  | none => .ok none

/-- `analyze_headers_results`: a request error short-circuits to exactly one
Critical `HEADERS_REQUEST_FAILED`; otherwise each of the four headers found
`NotFound` pushes its own missing finding. -/
def analyze_headers_results (results : HeadersResults) : List AnalysisFinding :=
  if results.error.isSome then [⟨.Critical, "HEADERS_REQUEST_FAILED"⟩]
  else
    (match results.hsts with
      | .ok none => [⟨.Warning, "HEADERS_HSTS_MISSING"⟩] | _ => []) ++
    (match results.csp with
      | .ok none => [⟨.Warning, "HEADERS_CSP_MISSING"⟩] | _ => []) ++
    (match results.x_frame_options with
      | .ok none => [⟨.Warning, "HEADERS_X_FRAME_OPTIONS_MISSING"⟩] | _ => []) ++
    (match results.x_content_type_options with
      | .ok none => [⟨.Info, "HEADERS_X_CONTENT_TYPE_OPTIONS_MISSING"⟩] | _ => [])

/-- `run_headers_scan`, applied to the outcomes of its two fallible
operations: building the HTTP client, then sending the GET request (whose
success yields the response header map).  Client-build failure and request
failure populate `error` on a default result; success records the four
`check_header` outcomes with `error = None`.  Each path then fills in the
analysis. -/
def run_headers_scan (clientBuild : Except String Unit)
    (request : Except String HeaderMap) : HeadersResults :=
  match clientBuild with
  | .error e =>
      let base := { defaultHeadersResults with
        error := some ("Failed to build HTTP client: " ++ e) }
      { base with analysis := analyze_headers_results base }
  | .ok _ =>
    match request with
    | .ok headers =>
        let base : HeadersResults :=
          { error := none
            hsts := check_header headers "strict-transport-security"
            csp := check_header headers "content-security-policy"
            x_frame_options := check_header headers "x-frame-options"
            x_content_type_options := check_header headers "x-content-type-options"
            analysis := [] }
        { base with analysis := analyze_headers_results base }
    | .error e =>
        let base := { defaultHeadersResults with
          error := some ("HTTP request failed: " ++ e) }
        { base with analysis := analyze_headers_results base }

-- ---------------------------------------------------------------------------
-- Fingerprint probe (`src/core/scanner/fingerprint_scanner.rs`)
-- ---------------------------------------------------------------------------

/-- `Technology` (`src/core/models.rs`): a detected technology with an
optional captured version. -/
structure Technology where
  name : String
  category : String
  version : Option String
deriving DecidableEq, Repr

/-- One rule of the `RULES` table together with the result of evaluating its
check against the single fetched response: `version = none` means the check
did not match, `some none` a match with no (or an empty) captured version,
and `some (some v)` a match capturing version `v`.  The regex evaluation of
`check_with_regex` and friends is abstracted into this outcome. -/
structure RuleOutcome where
  tech_name : String
  category : String
  version : Option (Option String)

/-- The body of the `for rule in RULES` loop of `run_fingerprint_scan`: on a
match, either fill in the version of an already recorded technology of the
same name (only if the recorded entry has no version and the new match has
one), or insert a new `Technology` entry.  The `HashMap<String, Technology>`
keyed by name is embedded as a list whose `name` fields act as keys. -/
def fingerprint_step (found : List Technology) (rule : RuleOutcome) : List Technology :=
  match rule with
  | ⟨_, _, none⟩ => found
  | ⟨tech_name, category, some v⟩ =>
      if found.any (fun t => t.name == tech_name) then
        found.map (fun t =>
          if t.name == tech_name && t.version.isNone && v.isSome
          then { t with version := v } else t)
      else
        found ++ [{ name := tech_name, category := category, version := v }]

/-- The rule loop of `run_fingerprint_scan`: fold the evaluated rules, in
table order, over an initially empty technology map. -/
def run_fingerprint_rules (rules : List RuleOutcome) : List Technology :=
  rules.foldl fingerprint_step []

-- ---------------------------------------------------------------------------
-- Knowledge base (`src/core/knowledge_base.rs`)
-- ---------------------------------------------------------------------------

/-- `FindingCategory` of the knowledge base. -/
inductive FindingCategory where
  | Dns
  | Ssl
  | Http
deriving DecidableEq, Repr

/-- `FindingDetail`: one knowledge-base entry.  The three human-prose string
fields (`title`, `description`, `remediation`) carry no logic and are elided
from the embedding; the key (`code`) and the machine-relevant `category` and
`severity` are kept verbatim. -/
structure FindingDetail where
  code : String
  category : FindingCategory
  severity : Severity
deriving DecidableEq, Repr

/-- The static `FINDINGS` array: every entry's `code`, `category` and
`severity`, in source order. -/
def FINDINGS : List FindingDetail :=
  [ ⟨"DNS_DMARC_MISSING", .Dns, .Critical⟩
  , ⟨"DNS_DMARC_POLICY_NONE", .Dns, .Warning⟩
  , ⟨"DNS_SPF_MISSING", .Dns, .Warning⟩
  , ⟨"DNS_SPF_POLICY_SOFTFAIL", .Dns, .Info⟩
  , ⟨"DNS_SPF_POLICY_NEUTRAL", .Dns, .Info⟩
  , ⟨"DNS_DKIM_MISSING", .Dns, .Info⟩
  , ⟨"DNS_CAA_MISSING", .Dns, .Info⟩
  , ⟨"SSL_HANDSHAKE_FAILED", .Ssl, .Critical⟩
  , ⟨"SSL_EXPIRED", .Ssl, .Critical⟩
  , ⟨"SSL_EXPIRING_SOON", .Ssl, .Warning⟩
  , ⟨"HEADERS_REQUEST_FAILED", .Http, .Critical⟩
  , ⟨"HEADERS_HSTS_MISSING", .Http, .Warning⟩
  , ⟨"HEADERS_CSP_MISSING", .Http, .Warning⟩
  , ⟨"HEADERS_X_FRAME_OPTIONS_MISSING", .Http, .Warning⟩
  , ⟨"HEADERS_X_CONTENT_TYPE_OPTIONS_MISSING", .Http, .Info⟩ ]

/-- `get_finding_detail`: linear search of `FINDINGS` by code. -/
def get_finding_detail (code : String) : Option FindingDetail :=
  FINDINGS.find? (fun f => f.code == code)

-- ---------------------------------------------------------------------------
-- Report and scoring (`src/app.rs`, `App::update_summary`)
-- ---------------------------------------------------------------------------

/-- `FingerprintResults` (`src/core/models.rs`): detected technologies plus
an optional error. -/
structure FingerprintResults where
  technologies : List Technology
  error : Option String

/-- Modelled from the spec: `ScanReport` (§3) with the four per-probe
results, as consumed by `App::update_summary` and assembled by
`run_full_scan` in `src/core/scanner/mod.rs`. -/
structure ScanReport where
  dns_results : DnsResults
  ssl_results : SslResults
  headers_results : HeadersResults
  fingerprint_results : FingerprintResults

/-- `ScanSummary` of `src/app.rs`: the `u8` score is embedded as a `Nat`
(< 256 by construction). -/
structure ScanSummary where
  score : Nat
  critical_issues : Nat
  warning_issues : Nat
  dns_check_passed : Bool
  ssl_check_passed : Bool
  headers_check_passed : Bool

/-- The Rust cast `(n : usize) as i16`: keep the low 16 bits and reinterpret
them as a signed 16-bit value.  (A preceding `usize` multiplication would
wrap modulo `2^64` in release builds, which composes with this cast to the
same residue modulo `2^16`.) -/
def usizeAsI16 (n : Nat) : Int :=
  let m := n % 65536
  if m < 32768 then (m : Int) else (m : Int) - 65536

/-- Rust `i16::saturating_sub`: the difference clamped to the `i16` range. -/
def i16SaturatingSub (a b : Int) : Int :=
  let r := a - b
  if r < -32768 then -32768 else if r > 32767 then 32767 else r

/-- Rust `matches!(severity, Severity::Critical)` as a Bool. -/
def isCritical (a : AnalysisFinding) : Bool :=
  match a.severity with | .Critical => true | _ => false

/-- Rust `matches!(severity, Severity::Warning)` as a Bool. -/
def isWarning (a : AnalysisFinding) : Bool :=
  match a.severity with | .Warning => true | _ => false

/-- The combined finding list of a report, in the order `update_summary`
chains it: DNS, then SSL, then headers analyses. -/
def allAnalyses (report : ScanReport) : List AnalysisFinding :=
  report.dns_results.analysis ++ report.ssl_results.analysis ++
    report.headers_results.analysis

/-- The score expression of `App::update_summary` as a function of the two
counts:
`score = 100i16.saturating_sub((criticals * 15) as i16).saturating_sub((warnings * 5) as i16)`,
negatives clamped to 0 and the result cast to `u8` (low 8 bits). -/
def scoreOfCounts (criticals warnings : Nat) : Nat :=
  let score := i16SaturatingSub (i16SaturatingSub 100 (usizeAsI16 (criticals * 15)))
    (usizeAsI16 (warnings * 5))
  if score < 0 then 0 else score.toNat % 256

/-- `App::update_summary`: count Critical and Warning findings over the
combined list, compute the score from the counts, and derive the three
per-category pass flags from the sub-lookup `is_ok` checks. -/
def update_summary (report : ScanReport) : ScanSummary :=
  let criticals := (allAnalyses report).countP isCritical
  let warnings := (allAnalyses report).countP isWarning
  let dns_check_passed := scanResultIsOk report.dns_results.spf
    && scanResultIsOk report.dns_results.dmarc
    && scanResultIsOk report.dns_results.dkim
    && scanResultIsOk report.dns_results.caa
  let ssl_check_passed := scanResultIsOk report.ssl_results.scan
  let headers_check_passed := report.headers_results.error.isNone
    && scanResultIsOk report.headers_results.hsts
    && scanResultIsOk report.headers_results.csp
    && scanResultIsOk report.headers_results.x_frame_options
    && scanResultIsOk report.headers_results.x_content_type_options
  { score := scoreOfCounts criticals warnings
    critical_issues := criticals
    warning_issues := warnings
    dns_check_passed := dns_check_passed
    ssl_check_passed := ssl_check_passed
    headers_check_passed := headers_check_passed }

/-- The score formula as the specification states it:
`clamp(100 - 15*criticals - 5*warnings, 0, 100)`, as an integer. -/
def specScore (criticals warnings : Nat) : Int :=
  max 0 (min 100 (100 - 15 * (criticals : Int) - 5 * (warnings : Int)))

-- ---------------------------------------------------------------------------
-- Helper lemmas: which findings each analysis block can emit
-- ---------------------------------------------------------------------------

/-- The DMARC block emits only the policy-none Warning or the missing
Critical. -/
lemma mem_dmarcFindings {d : ScanResult DmarcData} {f : AnalysisFinding}
    (h : f ∈ dmarcFindings d) :
    f = ⟨.Warning, "DNS_DMARC_POLICY_NONE"⟩ ∨ f = ⟨.Critical, "DNS_DMARC_MISSING"⟩ := by
  unfold dmarcFindings at h
  split at h
  next dd =>
    split at h
    · split_ifs at h
      · simp_all
      · simp at h
    · simp at h
  · simp_all
  · simp at h

/-- The SPF block emits only the softfail Info, the neutral Info or the
missing Warning. -/
lemma mem_spfFindings {s : ScanResult SpfData} {f : AnalysisFinding}
    (h : f ∈ spfFindings s) :
    f = ⟨.Info, "DNS_SPF_POLICY_SOFTFAIL"⟩ ∨ f = ⟨.Info, "DNS_SPF_POLICY_NEUTRAL"⟩ ∨
      f = ⟨.Warning, "DNS_SPF_MISSING"⟩ := by
  unfold spfFindings at h
  split at h
  · split_ifs at h <;> simp_all
  · simp_all
  · simp at h

/-- The DKIM block emits only the missing Info. -/
lemma mem_dkimFindings {d : ScanResult (List DkimRecord)} {f : AnalysisFinding}
    (h : f ∈ dkimFindings d) : f = ⟨.Info, "DNS_DKIM_MISSING"⟩ := by
  unfold dkimFindings at h
  split at h <;> simp_all

/-- The CAA block emits only the missing Info. -/
lemma mem_caaFindings {c : ScanResult (List String)} {f : AnalysisFinding}
    (h : f ∈ caaFindings c) : f = ⟨.Info, "DNS_CAA_MISSING"⟩ := by
  unfold caaFindings at h
  split at h <;> simp_all

/-- Every finding of the DNS analysis is one of the seven DNS findings. -/
lemma mem_analyze_dns_results {r : DnsResults} {f : AnalysisFinding}
    (h : f ∈ analyze_dns_results r) :
    f = ⟨.Warning, "DNS_DMARC_POLICY_NONE"⟩ ∨ f = ⟨.Critical, "DNS_DMARC_MISSING"⟩ ∨
    f = ⟨.Info, "DNS_SPF_POLICY_SOFTFAIL"⟩ ∨ f = ⟨.Info, "DNS_SPF_POLICY_NEUTRAL"⟩ ∨
    f = ⟨.Warning, "DNS_SPF_MISSING"⟩ ∨ f = ⟨.Info, "DNS_DKIM_MISSING"⟩ ∨
    f = ⟨.Info, "DNS_CAA_MISSING"⟩ := by
  unfold analyze_dns_results at h
  simp only [List.mem_append] at h
  rcases h with ((h | h) | h) | h
  · rcases mem_dmarcFindings h with h | h <;> simp [h]
  · rcases mem_spfFindings h with h | h | h <;> simp [h]
  · simp [mem_dkimFindings h]
  · simp [mem_caaFindings h]

/-- Every finding of the SSL analysis is one of the four SSL findings. -/
lemma mem_analyze_ssl_results {r : SslResults} {f : AnalysisFinding}
    (h : f ∈ analyze_ssl_results r) :
    f = ⟨.Critical, "SSL_HANDSHAKE_FAILED"⟩ ∨ f = ⟨.Warning, "SSL_NO_CERTIFICATE_FOUND"⟩ ∨
    f = ⟨.Critical, "SSL_EXPIRED"⟩ ∨ f = ⟨.Warning, "SSL_EXPIRING_SOON"⟩ := by
  unfold analyze_ssl_results at h
  split at h
  · simp_all
  · simp_all
  · simp only [List.mem_append] at h
    rcases h with h | h <;> split_ifs at h <;> simp_all

/-- Every finding of the headers analysis is one of the five header
findings. -/
lemma mem_analyze_headers_results {r : HeadersResults} {f : AnalysisFinding}
    (h : f ∈ analyze_headers_results r) :
    f = ⟨.Critical, "HEADERS_REQUEST_FAILED"⟩ ∨ f = ⟨.Warning, "HEADERS_HSTS_MISSING"⟩ ∨
    f = ⟨.Warning, "HEADERS_CSP_MISSING"⟩ ∨ f = ⟨.Warning, "HEADERS_X_FRAME_OPTIONS_MISSING"⟩ ∨
    f = ⟨.Info, "HEADERS_X_CONTENT_TYPE_OPTIONS_MISSING"⟩ := by
  unfold analyze_headers_results at h
  split_ifs at h
  · simp_all
  · simp only [List.mem_append] at h
    rcases h with ((h | h) | h) | h <;> split at h <;> simp_all

-- ---------------------------------------------------------------------------
-- C8: DMARC policy extraction
-- ---------------------------------------------------------------------------

/-- C8: for every DMARC lookup that finds a record, the policy is extracted
by splitting the record on `;` and then on `=`: the record
`v=DMARC1; p=quarantine; rua=mailto:x` yields policy `Some "quarantine"`,
and a found record with no `p=` tag (no `;`-piece whose trim starts with
`p=`) yields policy `None`. -/
theorem c8_dmarc_policy_extraction :
    (lookup_dmarc (.ok ["v=DMARC1; p=quarantine; rua=mailto:x"]) =
      .ok (some { record := "v=DMARC1; p=quarantine; rua=mailto:x",
                  policy := some "quarantine" }))
    ∧ (∀ (r : String) (rest : List String),
        (∀ s ∈ strSplit r ';', strStartsWith (strTrim s) "p=" = false) →
        lookup_dmarc (.ok (r :: rest)) = .ok (some { record := r, policy := none })) := by
  constructor
  · decide
  · intro r rest h
    have hfind : (strSplit r ';').find? (fun s => strStartsWith (strTrim s) "p=") = none := by
      rw [List.find?_eq_none]
      intro x hx
      simp [h x hx]
    simp [lookup_dmarc, dmarcPolicyOf, hfind]

/-- Witness for C8 at a record with no `p=` tag. -/
theorem c8_dmarc_policy_extraction_witness :
    lookup_dmarc (.ok ["v=DMARC1; rua=mailto:x"]) =
      .ok (some { record := "v=DMARC1; rua=mailto:x", policy := none }) :=
  c8_dmarc_policy_extraction.2 "v=DMARC1; rua=mailto:x" [] (by decide)

-- ---------------------------------------------------------------------------
-- C9: SPF softfail / neutral findings
-- ---------------------------------------------------------------------------

/-- A finding list none of whose codes is `c` counts zero findings with
code `c`. -/
lemma countP_code_zero {l : List AnalysisFinding} {c : String}
    (h : ∀ f ∈ l, f.code ≠ c) : l.countP (fun f => f.code == c) = 0 := by
  rw [List.countP_eq_zero]
  intro f hf
  simpa using h f hf

/-- C9: a found SPF record ending `~all` yields exactly one
`DNS_SPF_POLICY_SOFTFAIL` Info finding in the DNS analysis and no
`DNS_SPF_POLICY_NEUTRAL` finding; moreover, for every `DnsResults` the two
findings are mutually exclusive. -/
theorem c9_spf_softfail_exclusive (results : DnsResults) (s : SpfData)
    (hspf : results.spf = .ok (some s))
    (hend : strEndsWith s.record "~all" = true) :
    ((analyze_dns_results results).countP
        (fun f => f.code == "DNS_SPF_POLICY_SOFTFAIL") = 1
      ∧ (analyze_dns_results results).countP
        (fun f => f.code == "DNS_SPF_POLICY_NEUTRAL") = 0)
    ∧ (∀ r : DnsResults,
        (analyze_dns_results r).countP (fun f => f.code == "DNS_SPF_POLICY_SOFTFAIL") = 0
        ∨ (analyze_dns_results r).countP (fun f => f.code == "DNS_SPF_POLICY_NEUTRAL") = 0) := by
  have hdmarc : ∀ (d : ScanResult DmarcData) (c : String),
      c ≠ "DNS_DMARC_POLICY_NONE" → c ≠ "DNS_DMARC_MISSING" →
      (dmarcFindings d).countP (fun f => f.code == c) = 0 := by
    intro d c h1 h2
    refine countP_code_zero ?_
    intro f hf
    rcases mem_dmarcFindings hf with h | h <;> simp [h, Ne.symm h1, Ne.symm h2]
  have hdkim : ∀ (d : ScanResult (List DkimRecord)) (c : String),
      c ≠ "DNS_DKIM_MISSING" → (dkimFindings d).countP (fun f => f.code == c) = 0 := by
    intro d c h1
    refine countP_code_zero ?_
    intro f hf
    simp [mem_dkimFindings hf, Ne.symm h1]
  have hcaa : ∀ (d : ScanResult (List String)) (c : String),
      c ≠ "DNS_CAA_MISSING" → (caaFindings d).countP (fun f => f.code == c) = 0 := by
    intro d c h1
    refine countP_code_zero ?_
    intro f hf
    simp [mem_caaFindings hf, Ne.symm h1]
  constructor
  · have hchunk : spfFindings results.spf = [⟨.Info, "DNS_SPF_POLICY_SOFTFAIL"⟩] := by
      rw [hspf]
      simp [spfFindings, hend]
    constructor
    · simp only [analyze_dns_results, List.countP_append, hchunk]
      rw [hdmarc _ _ (by decide) (by decide), hdkim _ _ (by decide), hcaa _ _ (by decide)]
      decide
    · simp only [analyze_dns_results, List.countP_append, hchunk]
      rw [hdmarc _ _ (by decide) (by decide), hdkim _ _ (by decide), hcaa _ _ (by decide)]
      decide
  · intro r
    have hz : ∀ c : String, c ≠ "DNS_SPF_POLICY_SOFTFAIL" → c ≠ "DNS_SPF_POLICY_NEUTRAL" →
        c ≠ "DNS_SPF_MISSING" → (spfFindings r.spf).countP (fun f => f.code == c) = 0 := by
      intro c h1 h2 h3
      refine countP_code_zero ?_
      intro f hf
      rcases mem_spfFindings hf with h | h | h <;>
        simp [h, Ne.symm h1, Ne.symm h2, Ne.symm h3]
    rcases hsp : r.spf with e | o
    · left
      simp only [analyze_dns_results, List.countP_append]
      rw [hdmarc _ _ (by decide) (by decide), hdkim _ _ (by decide), hcaa _ _ (by decide),
        hsp]
      simp [spfFindings]
    · rcases o with _ | s
      · left
        simp only [analyze_dns_results, List.countP_append]
        rw [hdmarc _ _ (by decide) (by decide), hdkim _ _ (by decide), hcaa _ _ (by decide),
          hsp]
        simp [spfFindings]
      · by_cases hsoft : strEndsWith s.record "~all" = true
        · right
          simp only [analyze_dns_results, List.countP_append]
          rw [hdmarc _ _ (by decide) (by decide), hdkim _ _ (by decide), hcaa _ _ (by decide),
            hsp]
          simp [spfFindings, hsoft]
        · left
          simp only [analyze_dns_results, List.countP_append]
          rw [hdmarc _ _ (by decide) (by decide), hdkim _ _ (by decide), hcaa _ _ (by decide),
            hsp]
          by_cases hneut : strEndsWith s.record "?all" = true <;>
            simp [spfFindings, hsoft, hneut]

/-- Witness for C9 at a concrete `DnsResults` whose SPF record ends `~all`. -/
theorem c9_spf_softfail_exclusive_witness :
    (analyze_dns_results
        { spf := .ok (some { record := "v=spf1 include:_spf.google.com ~all" })
          dmarc := .ok none, dkim := .ok none, caa := .ok none, analysis := [] }).countP
      (fun f => f.code == "DNS_SPF_POLICY_SOFTFAIL") = 1 :=
  (c9_spf_softfail_exclusive
    { spf := .ok (some { record := "v=spf1 include:_spf.google.com ~all" })
      dmarc := .ok none, dkim := .ok none, caa := .ok none, analysis := [] }
    { record := "v=spf1 include:_spf.google.com ~all" } rfl (by decide)).1.1

-- ---------------------------------------------------------------------------
-- C10: DKIM lookup failure is indistinguishable from absence
-- ---------------------------------------------------------------------------

/-- C10: the DKIM lookup never returns `Failed`; a resolver that errors on a
query behaves exactly like one returning an empty answer on it; when every
selector lookup errors the outcome is `Ok(None)`, and a `DnsResults` whose
DKIM outcome is `Ok(None)` gets the Info `DNS_DKIM_MISSING` finding. -/
theorem c10_dkim_failure_is_absence (f : String → Except String (List String))
    (t : String) :
    (∃ v, lookup_dkim f t = .ok v)
    ∧ lookup_dkim f t =
        lookup_dkim (fun q => match f q with | .error _ => .ok [] | .ok l => .ok l) t
    ∧ ((∀ q, ∃ e, f q = .error e) →
        lookup_dkim f t = .ok none
        ∧ ∀ results : DnsResults, results.dkim = .ok none →
            (⟨.Info, "DNS_DKIM_MISSING"⟩ : AnalysisFinding) ∈ analyze_dns_results results) := by
  refine ⟨?_, ?_, ?_⟩
  · by_cases h : (COMMON_DKIM_SELECTORS.foldl (dkim_loop_body f t) []).isEmpty
    · exact ⟨none, by simp [lookup_dkim, h]⟩
    · exact ⟨some (COMMON_DKIM_SELECTORS.foldl (dkim_loop_body f t) []),
        by simp [lookup_dkim, h]⟩
  · have hstep : dkim_loop_body
        (fun q => match f q with | .error _ => .ok [] | .ok l => .ok l) t =
        dkim_loop_body f t := by
      funext acc selector
      unfold dkim_loop_body
      cases h : f (selector ++ "._domainkey." ++ t) <;> simp [h]
    unfold lookup_dkim
    rw [hstep]
  · intro hfail
    have hfold : ∀ (sels : List String) (acc : List DkimRecord),
        sels.foldl (dkim_loop_body f t) acc = acc := by
      intro sels
      induction sels with
      | nil => intro acc; rfl
      | cons s ss ih =>
        intro acc
        obtain ⟨e, he⟩ := hfail (s ++ "._domainkey." ++ t)
        simp only [List.foldl_cons, dkim_loop_body, he]
        exact ih acc
    constructor
    · unfold lookup_dkim
      rw [hfold]
      rfl
    · intro results h
      simp [analyze_dns_results, dkimFindings, h]

/-- Witness for C10: a resolver failing on every query yields `Ok(None)` and
the missing-DKIM finding is emitted for a `Ok(None)` DKIM outcome. -/
theorem c10_dkim_failure_is_absence_witness :
    lookup_dkim (fun _ => .error "DNS Error: timeout") "example.com" = .ok none
    ∧ (⟨.Info, "DNS_DKIM_MISSING"⟩ : AnalysisFinding) ∈ analyze_dns_results
        { spf := .ok none, dmarc := .ok none, dkim := .ok none, caa := .ok none,
          analysis := [] } := by
  have h := (c10_dkim_failure_is_absence (fun _ => .error "DNS Error: timeout")
    "example.com").2.2 (fun _ => ⟨"DNS Error: timeout", rfl⟩)
  exact ⟨h.1, h.2 _ rfl⟩

-- ---------------------------------------------------------------------------
-- C5: any TLS-scan failure yields exactly the handshake-failure finding
-- ---------------------------------------------------------------------------

/-- C5: whenever the blocking TLS work fails in any way — connector setup,
TCP connection, handshake, certificate retrieval, DER conversion, X.509
parsing, or a panic of the worker thread — the SSL analysis is exactly one
Critical `SSL_HANDSHAKE_FAILED` finding, the scan outcome is `Failed`, and a
panic is converted into a `Failed` outcome carrying the `Task panicked:`
message rather than propagated. -/
theorem c5_tls_failure_exclusive (blocking : Except String TlsOutcome) (now : Int)
    (h : tlsWorkFailed blocking = true) :
    (run_ssl_scan blocking now).analysis = [⟨.Critical, "SSL_HANDSHAKE_FAILED"⟩]
    ∧ (∃ m, (run_ssl_scan blocking now).scan = .error m)
    ∧ (∀ e, blocking = .error e →
        (run_ssl_scan blocking now).scan = .error ("Task panicked: " ++ e)) := by
  rcases blocking with e | outcome
  · exact ⟨by simp [run_ssl_scan, analyze_ssl_results],
      ⟨"Task panicked: " ++ e, rfl⟩, by intro e' he'; simp_all [run_ssl_scan]⟩
  · cases outcome <;> simp_all [tlsWorkFailed, run_ssl_scan, perform_tls_scan,
      analyze_ssl_results]

/-- Witness for C5 at a panicking worker thread. -/
theorem c5_tls_failure_exclusive_witness :
    (run_ssl_scan (.error "boom") 0).analysis = [⟨.Critical, "SSL_HANDSHAKE_FAILED"⟩]
    ∧ (run_ssl_scan (.error "boom") 0).scan = .error ("Task panicked: " ++ "boom") := by
  have h := c5_tls_failure_exclusive (.error "boom") 0 rfl
  exact ⟨h.1, h.2.2 "boom" rfl⟩

-- ---------------------------------------------------------------------------
-- C6: headers request failure short-circuits to one Critical finding
-- ---------------------------------------------------------------------------

/-- Without a request error, the headers analysis emits only the four
missing-header findings. -/
lemma mem_analyze_headers_results_noerr {r : HeadersResults} (hr : r.error = none)
    {f : AnalysisFinding} (h : f ∈ analyze_headers_results r) :
    f = ⟨.Warning, "HEADERS_HSTS_MISSING"⟩ ∨ f = ⟨.Warning, "HEADERS_CSP_MISSING"⟩ ∨
    f = ⟨.Warning, "HEADERS_X_FRAME_OPTIONS_MISSING"⟩ ∨
    f = ⟨.Info, "HEADERS_X_CONTENT_TYPE_OPTIONS_MISSING"⟩ := by
  unfold analyze_headers_results at h
  rw [hr] at h
  simp only [Option.isSome_none, Bool.false_eq_true, if_false, List.mem_append] at h
  rcases h with ((h | h) | h) | h <;> revert h <;> split <;> intro h <;> simp_all

/-- C6: when the HTTP request of the headers scan fails (client construction
or network error), the analysis is exactly one Critical
`HEADERS_REQUEST_FAILED` finding and no per-header missing finding;
conversely, when the request succeeds, the request-failure finding is never
emitted. -/
theorem c6_headers_request_failure (cb : Except String Unit)
    (req : Except String HeaderMap)
    (hfail : (∃ e, cb = .error e) ∨ (∃ e, req = .error e)) :
    (run_headers_scan cb req).analysis = [⟨.Critical, "HEADERS_REQUEST_FAILED"⟩]
    ∧ ∀ (headers : HeaderMap),
        (⟨.Critical, "HEADERS_REQUEST_FAILED"⟩ : AnalysisFinding) ∉
          (run_headers_scan (.ok ()) (.ok headers)).analysis := by
  constructor
  · rcases cb with e | u
    · simp [run_headers_scan, analyze_headers_results]
    · rcases req with e | headers
      · simp [run_headers_scan, analyze_headers_results]
      · rcases hfail with ⟨e, he⟩ | ⟨e, he⟩ <;> exact absurd he (by simp)
  · intro headers hmem
    have h : (run_headers_scan (.ok ()) (.ok headers)).analysis =
        analyze_headers_results
          { error := none
            hsts := check_header headers "strict-transport-security"
            csp := check_header headers "content-security-policy"
            x_frame_options := check_header headers "x-frame-options"
            x_content_type_options := check_header headers "x-content-type-options"
            analysis := [] } := rfl
    rw [h] at hmem
    rcases mem_analyze_headers_results_noerr rfl hmem with hc | hc | hc | hc <;> simp at hc


/-- Witness for C6 at a failed network request. -/
theorem c6_headers_request_failure_witness :
    (run_headers_scan (.ok ()) (.error "connection refused")).analysis =
      [⟨.Critical, "HEADERS_REQUEST_FAILED"⟩] :=
  (c6_headers_request_failure (.ok ()) (.error "connection refused")
    (Or.inr ⟨"connection refused", rfl⟩)).1

-- ---------------------------------------------------------------------------
-- C7: fingerprint deduplication by technology name
-- ---------------------------------------------------------------------------

/-- The fingerprint loop never changes an entry's name: the update map only
touches the version field. -/
lemma fingerprint_step_name_eq (tn : String) (v : Option String)
    (t : Technology) :
    (if t.name == tn && t.version.isNone && v.isSome
     then { t with version := v } else t).name = t.name := by
  split <;> rfl

/-- One fingerprint step preserves the no-duplicate-names invariant. -/
lemma fingerprint_step_pairwise (found : List Technology) (rule : RuleOutcome)
    (hf : found.Pairwise (fun a b => a.name ≠ b.name)) :
    (fingerprint_step found rule).Pairwise (fun a b => a.name ≠ b.name) := by
  obtain ⟨tn, tc, tv⟩ := rule
  rcases tv with _ | v
  · exact hf
  · simp only [fingerprint_step]
    split
    · rw [List.pairwise_map]
      exact hf.imp (fun hab => by
        rwa [fingerprint_step_name_eq, fingerprint_step_name_eq])
    next hnotin =>
      rw [List.pairwise_append]
      refine ⟨hf, List.pairwise_singleton _ _, ?_⟩
      intro a ha b hb
      simp only [List.mem_singleton] at hb
      subst hb
      have := List.any_eq_false.mp (Bool.not_eq_true _ ▸ hnotin) a ha
      simpa using this

/-- One fingerprint step never overwrites a recorded version. -/
lemma fingerprint_step_keeps_version (found : List Technology) (rule : RuleOutcome)
    {n v : String} (h : ∃ t ∈ found, t.name = n ∧ t.version = some v) :
    ∃ t ∈ fingerprint_step found rule, t.name = n ∧ t.version = some v := by
  obtain ⟨t, ht, hn, hv⟩ := h
  obtain ⟨tn, tc, tv⟩ := rule
  rcases tv with _ | v'
  · exact ⟨t, ht, hn, hv⟩
  · simp only [fingerprint_step]
    split
    · refine ⟨if t.name == tn && t.version.isNone && v'.isSome
          then { t with version := v' } else t,
        List.mem_map_of_mem (fun t =>
          if t.name == tn && t.version.isNone && v'.isSome
          then { t with version := v' } else t) ht, ?_⟩
      have hcond : (t.name == tn && t.version.isNone && v'.isSome) = false := by
        rw [hv]
        simp
      simp only [hcond, Bool.false_eq_true, if_false]
      exact ⟨hn, hv⟩
    · exact ⟨t, List.mem_append_left _ ht, hn, hv⟩

/-- C7: the fingerprint rule loop keeps at most one `Technology` entry per
technology name; a rule matching without a version followed by one matching
the same name with captured version `2.3.4` yields exactly one entry whose
version is `2.3.4`; and an entry whose version is already captured keeps
that version through any further rules. -/
theorem c7_fingerprint_dedup :
    (∀ rules : List RuleOutcome,
      (run_fingerprint_rules rules).Pairwise (fun a b => a.name ≠ b.name))
    ∧ (∀ n c c2 : String,
        run_fingerprint_rules [⟨n, c, some none⟩, ⟨n, c2, some (some "2.3.4")⟩] =
          [⟨n, c, some "2.3.4"⟩])
    ∧ (∀ (rules : List RuleOutcome) (found : List Technology) (n v : String),
        (∃ t ∈ found, t.name = n ∧ t.version = some v) →
        ∃ t ∈ rules.foldl fingerprint_step found, t.name = n ∧ t.version = some v) := by
  refine ⟨?_, ?_, ?_⟩
  · have key : ∀ (rules : List RuleOutcome) (found : List Technology),
        found.Pairwise (fun a b => a.name ≠ b.name) →
        (rules.foldl fingerprint_step found).Pairwise (fun a b => a.name ≠ b.name) := by
      intro rules
      induction rules with
      | nil => intro found hf; exact hf
      | cons rule rest ih =>
        intro found hf
        exact ih _ (fingerprint_step_pairwise found rule hf)
    intro rules
    exact key rules [] List.Pairwise.nil
  · intro n c c2
    simp [run_fingerprint_rules, fingerprint_step]
  · intro rules
    induction rules with
    | nil => intro found n v h; exact h
    | cons rule rest ih =>
      intro found n v h
      exact ih _ n v (fingerprint_step_keeps_version found rule h)

/-- Witness for C7: a version captured by an earlier rule survives a later
match of the same technology. -/
theorem c7_fingerprint_dedup_witness :
    ∃ t ∈ [RuleOutcome.mk "Nginx" "Web Server" (some (some "9.9"))].foldl
        fingerprint_step [Technology.mk "Nginx" "Web Server" (some "1.2")],
      t.name = "Nginx" ∧ t.version = some "1.2" :=
  c7_fingerprint_dedup.2.2 [⟨"Nginx", "Web Server", some (some "9.9")⟩]
    [⟨"Nginx", "Web Server", some "1.2"⟩] "Nginx" "1.2"
    ⟨⟨"Nginx", "Web Server", some "1.2"⟩, by simp, rfl, rfl⟩

-- ---------------------------------------------------------------------------
-- C2 / C4: certificate validity window and day count
-- ---------------------------------------------------------------------------

/-- `Int.tdiv` by 86400 on a nonnegative dividend rounds down. -/
lemma tdiv86400_nonneg (a : Int) (h : 0 ≤ a) :
    86400 * Int.tdiv a 86400 ≤ a ∧ a < 86400 * Int.tdiv a 86400 + 86400 ∧
      0 ≤ Int.tdiv a 86400 := by
  rw [Int.tdiv_eq_ediv h (by norm_num)]
  omega

/-- `Int.tdiv` by 86400 on a negative dividend rounds up (toward zero). -/
lemma tdiv86400_neg (a : Int) (h : a < 0) :
    a ≤ 86400 * Int.tdiv a 86400 ∧ 86400 * Int.tdiv a 86400 < a + 86400 ∧
      Int.tdiv a 86400 ≤ 0 := by
  have h1 : 0 ≤ -a := by omega
  have h2 : Int.tdiv a 86400 = -((-a) / 86400) := by
    conv_lhs => rw [show a = -(-a) by ring]
    rw [Int.neg_tdiv, Int.tdiv_eq_ediv h1 (by norm_num)]
  rw [h2]
  omega

/-- Counterexample to C2 as stated: a certificate whose `not_after` lies in
the past, but by less than one day, has `days_until_expiry = 0` (not
negative: `num_days` truncates toward zero), so the analysis contains the
`SSL_EXPIRING_SOON` Warning alongside the Critical `SSL_EXPIRED`. -/
theorem c2_counterexample :
    (999000 : Int) < 1000000
    ∧ (run_ssl_scan (.ok (.cert "CN=example" "CN=CA" 0 999000)) 1000000).scan =
        .ok (some { is_valid := false
                    certificate_info := { subject_name := "CN=example"
                                          issuer_name := "CN=CA"
                                          not_before := 0
                                          not_after := 999000
                                          days_until_expiry := 0 } })
    ∧ (⟨.Warning, "SSL_EXPIRING_SOON"⟩ : AnalysisFinding) ∈
        (run_ssl_scan (.ok (.cert "CN=example" "CN=CA" 0 999000)) 1000000).analysis := by
  refine ⟨by norm_num, ?_, ?_⟩ <;> decide

/-- C2 as amended: for every retrieved certificate with `not_after` in the
past, `is_valid` is `false` and the analysis contains exactly one Critical
`SSL_EXPIRED`; the Warning `SSL_EXPIRING_SOON` is additionally present
exactly when the certificate expired less than 86400 seconds (one day)
before `now`, because `days_until_expiry` truncates toward zero and is then
`0`, inside `[0, 30]`. -/
theorem c2_amended (s i : String) (nb na now : Int) (h : na < now) :
    (run_ssl_scan (.ok (.cert s i nb na)) now).scan =
      .ok (some { is_valid := false
                  certificate_info := { subject_name := s, issuer_name := i
                                        not_before := nb, not_after := na
                                        days_until_expiry := durationNumDays (na - now) } })
    ∧ ((run_ssl_scan (.ok (.cert s i nb na)) now).analysis).countP
        (fun f => f.code == "SSL_EXPIRED") = 1
    ∧ ((⟨.Warning, "SSL_EXPIRING_SOON"⟩ : AnalysisFinding) ∈
        (run_ssl_scan (.ok (.cert s i nb na)) now).analysis ↔ now - na < 86400) := by
  have hlt : ¬(now < na) := by omega
  have hval : (decide (now > nb) && decide (now < na)) = false := by simp [hlt]
  have hscan : (run_ssl_scan (.ok (.cert s i nb na)) now).scan =
      .ok (some { is_valid := false
                  certificate_info := { subject_name := s, issuer_name := i
                                        not_before := nb, not_after := na
                                        days_until_expiry := durationNumDays (na - now) } }) := by
    simp [run_ssl_scan, perform_tls_scan, hval]
  have hana : (run_ssl_scan (.ok (.cert s i nb na)) now).analysis =
      [⟨.Critical, "SSL_EXPIRED"⟩] ++
        (if 0 ≤ durationNumDays (na - now) ∧ durationNumDays (na - now) ≤ 30
         then [⟨.Warning, "SSL_EXPIRING_SOON"⟩] else []) := by
    simp only [run_ssl_scan, analyze_ssl_results, perform_tls_scan, hval,
      Bool.false_eq_true, if_false]
  obtain ⟨hd1, hd2, hd3⟩ := tdiv86400_neg (na - now) (by omega)
  refine ⟨hscan, ?_, ?_⟩
  · rw [hana]
    by_cases hc : 0 ≤ durationNumDays (na - now) ∧ durationNumDays (na - now) ≤ 30 <;>
      simp [hc]
  · rw [hana]
    unfold durationNumDays at *
    constructor
    · intro hmem
      by_cases hc : 0 ≤ Int.tdiv (na - now) 86400 ∧ Int.tdiv (na - now) 86400 ≤ 30
      · omega
      · simp [hc] at hmem
    · intro hsmall
      have hc : 0 ≤ Int.tdiv (na - now) 86400 ∧ Int.tdiv (na - now) 86400 ≤ 30 := by omega
      simp [hc]

/-- Witness for C2 (amended) at a certificate expired by 1000 seconds. -/
theorem c2_amended_witness :
    ((run_ssl_scan (.ok (.cert "CN" "CA" 0 999000)) 1000000).analysis).countP
      (fun f => f.code == "SSL_EXPIRED") = 1
    ∧ (⟨.Warning, "SSL_EXPIRING_SOON"⟩ : AnalysisFinding) ∈
        (run_ssl_scan (.ok (.cert "CN" "CA" 0 999000)) 1000000).analysis := by
  have h := c2_amended "CN" "CA" 0 999000 1000000 (by norm_num)
  exact ⟨h.2.1, h.2.2.mpr (by norm_num)⟩

/-- Counterexample to C4 as stated: at `now` exactly equal to `not_after`
(which the claim's closed interval counts as valid) the code computes
`is_valid = false`; and for a certificate expiring in 129600 seconds
(1.5 days) the code computes `days_until_expiry = 1`, which is not the
ceiling of the duration in days since `86400 * 1 < 129600`. -/
theorem c4_counterexample :
    (perform_tls_scan (.cert "CN" "CA" 0 1000) 1000 =
      .ok (some { is_valid := false
                  certificate_info := { subject_name := "CN", issuer_name := "CA"
                                        not_before := 0, not_after := 1000
                                        days_until_expiry := 0 } }))
    ∧ ((0 : Int) ≤ 1000 ∧ (1000 : Int) ≤ 1000)
    ∧ (perform_tls_scan (.cert "CN" "CA" (-1) 129600) 0 =
      .ok (some { is_valid := true
                  certificate_info := { subject_name := "CN", issuer_name := "CA"
                                        not_before := -1, not_after := 129600
                                        days_until_expiry := 1 } }))
    ∧ 86400 * (1 : Int) < 129600 - 0 := by
  refine ⟨?_, ⟨by norm_num, by norm_num⟩, ?_, by norm_num⟩ <;> decide

/-- C4 as amended: for every decoded certificate, `days_until_expiry` is the
duration `not_after − now` in whole days rounded toward zero (the behavior
of `num_days`, not the ceiling), and `is_valid` holds exactly on the OPEN
interval `(not_before, not_after)`: an instant equal to either boundary
counts as invalid. -/
theorem c4_amended (s i : String) (nb na now : Int) :
    ∃ d : SslData,
      perform_tls_scan (.cert s i nb na) now = .ok (some d)
      ∧ (d.is_valid = true ↔ (nb < now ∧ now < na))
      ∧ d.certificate_info.not_before = nb
      ∧ d.certificate_info.not_after = na
      ∧ (0 ≤ na - now →
          86400 * d.certificate_info.days_until_expiry ≤ na - now
          ∧ na - now < 86400 * d.certificate_info.days_until_expiry + 86400
          ∧ 0 ≤ d.certificate_info.days_until_expiry)
      ∧ (na - now < 0 →
          na - now ≤ 86400 * d.certificate_info.days_until_expiry
          ∧ 86400 * d.certificate_info.days_until_expiry < na - now + 86400
          ∧ d.certificate_info.days_until_expiry ≤ 0) := by
  refine ⟨{ is_valid := decide (now > nb) && decide (now < na)
            certificate_info := { subject_name := s, issuer_name := i
                                  not_before := nb, not_after := na
                                  days_until_expiry := durationNumDays (na - now) } },
    rfl, ?_, rfl, rfl, ?_, ?_⟩
  · simp [and_comm]
  · intro hpos
    exact tdiv86400_nonneg (na - now) hpos
  · intro hneg
    exact tdiv86400_neg (na - now) hneg

/-- Witness for C4 (amended) at boundary and mid-day instants. -/
theorem c4_amended_witness :
    ∃ d : SslData,
      perform_tls_scan (.cert "CN" "CA" (-1) 129600) 0 = .ok (some d)
      ∧ 86400 * d.certificate_info.days_until_expiry ≤ 129600 - 0
      ∧ 129600 - 0 < 86400 * d.certificate_info.days_until_expiry + 86400 := by
  obtain ⟨d, h1, _, _, _, h5, _⟩ := c4_amended "CN" "CA" (-1) 129600 0
  obtain ⟨ha, hb, _⟩ := h5 (by norm_num)
  exact ⟨d, h1, ha, hb⟩

-- ---------------------------------------------------------------------------
-- C3: finding codes resolve in the knowledge base
-- ---------------------------------------------------------------------------

/-- Counterexample to C3 as stated: the Warning emitted when the handshake
succeeds but the peer presents no certificate carries the code
`SSL_NO_CERTIFICATE_FOUND`, and `get_finding_detail` has no entry for it —
the `FINDINGS` table holds only `SSL_HANDSHAKE_FAILED`, `SSL_EXPIRED` and
`SSL_EXPIRING_SOON` for the SSL category. -/
theorem c3_counterexample :
    (run_ssl_scan (.ok .noPeerCert) 0).analysis =
      [⟨.Warning, "SSL_NO_CERTIFICATE_FOUND"⟩]
    ∧ get_finding_detail "SSL_NO_CERTIFICATE_FOUND" = none := by
  constructor <;> decide

/-- C3 as amended: every finding code any analyzer can emit resolves in the
knowledge base, with the single exception of `SSL_NO_CERTIFICATE_FOUND`, for
which `get_finding_detail` returns `None` (rendered with the placeholder). -/
theorem c3_amended (dnsR : DnsResults) (sslR : SslResults)
    (headersR : HeadersResults) (f : AnalysisFinding)
    (hf : f ∈ analyze_dns_results dnsR ++ analyze_ssl_results sslR ++
      analyze_headers_results headersR) :
    (get_finding_detail f.code).isSome = true ∨ f.code = "SSL_NO_CERTIFICATE_FOUND" := by
  rw [List.mem_append, List.mem_append] at hf
  rcases hf with (hd | hs) | hh
  · rcases mem_analyze_dns_results hd with h | h | h | h | h | h | h <;> subst h <;>
      left <;> decide
  · rcases mem_analyze_ssl_results hs with h | h | h | h
    · subst h; left; decide
    · subst h; right; rfl
    · subst h; left; decide
    · subst h; left; decide
  · rcases mem_analyze_headers_results hh with h | h | h | h | h <;> subst h <;>
      left <;> decide

/-- Witness for C3 (amended): the missing-DMARC Critical emitted on an empty
DMARC answer resolves in the knowledge base. -/
theorem c3_amended_witness :
    (get_finding_detail
      (⟨Severity.Critical, "DNS_DMARC_MISSING"⟩ : AnalysisFinding).code).isSome = true
    ∨ (⟨Severity.Critical, "DNS_DMARC_MISSING"⟩ : AnalysisFinding).code =
        "SSL_NO_CERTIFICATE_FOUND" :=
  c3_amended
    { spf := .ok none, dmarc := .ok none, dkim := .ok none, caa := .ok none,
      analysis := [] }
    { scan := .ok none, analysis := [] }
    { error := none, hsts := .ok none, csp := .ok none, x_frame_options := .ok none,
      x_content_type_options := .ok none, analysis := [] }
    ⟨Severity.Critical, "DNS_DMARC_MISSING"⟩ (by decide)

-- ---------------------------------------------------------------------------
-- C1: the summary score
-- ---------------------------------------------------------------------------

/-- A `DnsResults` with every lookup `NotFound` and no findings (fixture for
concrete instantiations). -/
def emptyDnsResults : DnsResults :=
  { spf := .ok none
    dmarc := .ok none
    dkim := .ok none
    caa := .ok none
    analysis := [] }

/-- An `SslResults` with a certificate-less scan and no findings (fixture). -/
def emptySslResults : SslResults :=
  { scan := .ok none, analysis := [] }

/-- A `FingerprintResults` with no technologies (fixture). -/
def emptyFingerprintResults : FingerprintResults :=
  { technologies := [], error := none }

/-- A report whose only findings are a given DNS analysis list (fixture). -/
def reportWithDnsAnalysis (l : List AnalysisFinding) : ScanReport :=
  { dns_results := { emptyDnsResults with analysis := l }
    ssl_results := emptySslResults
    headers_results := defaultHeadersResults
    fingerprint_results := emptyFingerprintResults }

/-- The reported score is the score of the two severity counts, by
definition of `update_summary`. -/
lemma update_summary_score (report : ScanReport) :
    (update_summary report).score =
      scoreOfCounts ((allAnalyses report).countP isCritical)
        ((allAnalyses report).countP isWarning) := rfl

/-- The combined findings of a DNS-analysis-only report are exactly that
analysis list. -/
lemma allAnalyses_reportWithDnsAnalysis (l : List AnalysisFinding) :
    allAnalyses (reportWithDnsAnalysis l) = l := by
  simp [allAnalyses, reportWithDnsAnalysis, emptyDnsResults, emptySslResults,
    defaultHeadersResults]

/-- The clamp formula as an if-expression (the upper clamp never bites). -/
lemma specScore_eq (c w : Nat) :
    specScore c w =
      if (100 : Int) - 15 * c - 5 * w < 0 then 0 else (100 : Int) - 15 * c - 5 * w := by
  unfold specScore
  have hle : (100 : Int) - 15 * c - 5 * w ≤ 100 := by omega
  rw [min_eq_right hle]
  split_ifs with hx
  · rw [max_eq_left (by omega)]
  · rw [max_eq_right (by omega)]

/-- Arithmetic core of the score: below the `i16` wrap threshold the cast,
saturating subtractions, negative clamp and `u8` cast compose to exactly the
clamp formula, bounded by 100. -/
lemma score_formula (c w : Nat) (hc : c * 15 < 32768) (hw : w * 5 < 32768) :
    ((scoreOfCounts c w : Nat) : Int) = specScore c w ∧ scoreOfCounts c w ≤ 100 := by
  have hc16 : usizeAsI16 (c * 15) = ((c * 15 : Nat) : Int) := by
    unfold usizeAsI16
    rw [Nat.mod_eq_of_lt (by omega)]
    rw [if_pos (by exact_mod_cast hc)]
  have hw16 : usizeAsI16 (w * 5) = ((w * 5 : Nat) : Int) := by
    unfold usizeAsI16
    rw [Nat.mod_eq_of_lt (by omega)]
    rw [if_pos (by exact_mod_cast hw)]
  have hsat : i16SaturatingSub (i16SaturatingSub 100 (usizeAsI16 (c * 15)))
      (usizeAsI16 (w * 5)) =
      if 100 - ((c * 15 : Nat) : Int) - ((w * 5 : Nat) : Int) < -32768 then -32768
      else 100 - ((c * 15 : Nat) : Int) - ((w * 5 : Nat) : Int) := by
    rw [hc16, hw16]
    unfold i16SaturatingSub
    split_ifs <;> push_cast at * <;> omega
  simp only [scoreOfCounts, hsat, specScore_eq]
  split_ifs <;>
    first
      | omega
      | (rw [Nat.mod_eq_of_lt (by omega)]
         constructor <;> omega)

set_option maxRecDepth 10000 in
/-- Counterexample to C1 as stated over all counts: for a report carrying
2185 Critical findings, `(criticals * 15) as i16` wraps (`32775` becomes
`-32761`), the saturating subtraction pegs the `i16` score at `32767`, and
the final `as u8` cast truncates it to `255` — while
`clamp(100 − 15·2185, 0, 100)` is `0`.  The score both differs from the
clamp formula and exceeds 100. -/
theorem c1_counterexample :
    ((allAnalyses (reportWithDnsAnalysis
        (List.replicate 2185 ⟨.Critical, "SSL_HANDSHAKE_FAILED"⟩))).countP
        isCritical = 2185)
    ∧ (update_summary (reportWithDnsAnalysis
        (List.replicate 2185 ⟨.Critical, "SSL_HANDSHAKE_FAILED"⟩))).score = 255
    ∧ specScore 2185 0 = 0
    ∧ ¬((255 : Nat) ≤ 100) := by
  have hcrit : (List.replicate 2185
      (AnalysisFinding.mk Severity.Critical "SSL_HANDSHAKE_FAILED")).countP isCritical
      = 2185 := by
    rw [List.countP_replicate]
    decide
  have hwarn : (List.replicate 2185
      (AnalysisFinding.mk Severity.Critical "SSL_HANDSHAKE_FAILED")).countP isWarning
      = 0 := by
    rw [List.countP_replicate]
    decide
  have hall := allAnalyses_reportWithDnsAnalysis
    (List.replicate 2185 ⟨.Critical, "SSL_HANDSHAKE_FAILED"⟩)
  refine ⟨?_, ?_, by decide, by decide⟩
  · rw [hall, hcrit]
  · rw [update_summary_score, hall, hcrit, hwarn]
    decide

/-- C1 as amended: whenever `15 · criticals` and `5 · warnings` stay below
`2^15` (true for every report the probes can produce, whose combined finding
count is at most a dozen), the summary score equals
`clamp(100 − 15·criticals − 5·warnings, 0, 100)` — in particular it is never
negative and never exceeds 100 — and the counted issues are reported
unchanged. -/
theorem c1_amended (report : ScanReport)
    (hc : (allAnalyses report).countP isCritical * 15 < 32768)
    (hw : (allAnalyses report).countP isWarning * 5 < 32768) :
    ((update_summary report).score : Int) =
      specScore ((allAnalyses report).countP isCritical)
        ((allAnalyses report).countP isWarning)
    ∧ (update_summary report).score ≤ 100
    ∧ (update_summary report).critical_issues = (allAnalyses report).countP isCritical
    ∧ (update_summary report).warning_issues = (allAnalyses report).countP isWarning := by
  obtain ⟨h1, h2⟩ := score_formula ((allAnalyses report).countP isCritical)
    ((allAnalyses report).countP isWarning) hc hw
  exact ⟨h1, h2, rfl, rfl⟩

/-- Witness for C1 (amended): two criticals and one warning score 65, ten
criticals score 0 (the clamp floor). -/
theorem c1_amended_witness :
    ((update_summary (reportWithDnsAnalysis
        [⟨.Critical, "A"⟩, ⟨.Critical, "B"⟩, ⟨.Warning, "C"⟩])).score : Int) =
      specScore 2 1
    ∧ specScore 2 1 = 65
    ∧ ((update_summary (reportWithDnsAnalysis
        (List.replicate 10 ⟨.Critical, "A"⟩))).score : Int) = specScore 10 0
    ∧ specScore 10 0 = 0 := by
  have h1 := c1_amended (reportWithDnsAnalysis
    [⟨.Critical, "A"⟩, ⟨.Critical, "B"⟩, ⟨.Warning, "C"⟩]) (by decide) (by decide)
  have h2 := c1_amended (reportWithDnsAnalysis
    (List.replicate 10 ⟨.Critical, "A"⟩)) (by decide) (by decide)
  refine ⟨?_, by decide, ?_, by decide⟩
  · have h := h1.1
    rwa [show (allAnalyses (reportWithDnsAnalysis
        [⟨.Critical, "A"⟩, ⟨.Critical, "B"⟩, ⟨.Warning, "C"⟩])).countP isCritical = 2
        from by decide,
      show (allAnalyses (reportWithDnsAnalysis
        [⟨.Critical, "A"⟩, ⟨.Critical, "B"⟩, ⟨.Warning, "C"⟩])).countP isWarning = 1
        from by decide] at h
  · have h := h2.1
    rwa [show (allAnalyses (reportWithDnsAnalysis
        (List.replicate 10 ⟨.Critical, "A"⟩))).countP isCritical = 10 from by decide,
      show (allAnalyses (reportWithDnsAnalysis
        (List.replicate 10 ⟨.Critical, "A"⟩))).countP isWarning = 0 from by decide]
      at h

end Vanguard
